import Mathlib

/-!
Shallow embedding of the search-orchestration core of `src/script.js`
(anime scene search app): result cache, retry/backoff loop of
`performSearch`, `cleanupCache`, `generateCacheKey`, `isValidImageFile`
and the ranking step of `displayResults`.

Numbers: JS `number` values that the program only adds, divides and
compares are modelled as rationals (`ℚ`); millisecond timestamps from
`Date.now()` as integers (`ℤ`); byte sizes and HTTP statuses as naturals.
Asynchronous environment effects (how a `fetch` resolves, what
`Math.random()` returns, whether `crypto.subtle.digest` is available,
whether an image decodes) are passed in as explicit parameters.
-/

namespace MrSauce

/-- One candidate match from the remote service (the objects in the JSON
`result` array): a similarity score plus optional descriptive fields. -/
structure RawMatch where
  similarity : ℚ
  episode : Option String := none
  fromTime : Option ℚ := none
  toTime : Option ℚ := none
  image : Option String := none
  video : Option String := none
  deriving DecidableEq

/-- The value stored in `this.searchCache` by `performSearch`
(script.js lines 972-976): `{data, timestamp, responseTime}`. -/
structure CacheEntry where
  data : List RawMatch
  timestamp : Int
  responseTime : ℚ
  deriving DecidableEq

/-- The field `this.searchCache` is a JS `Map`; modelled as an insertion-ordered
association list with (invariantly) unique keys. -/
abbrev Cache := List (String × CacheEntry)

/-- Constant `this.CACHE_EXPIRY = 3600000` (1 hour in ms, script.js line 76). -/
def CACHE_EXPIRY : Int := 3600000

/-- Constant `this.MAX_FILE_SIZE = 25 * 1024 * 1024` (script.js line 77). -/
def MAX_FILE_SIZE : Nat := 25 * 1024 * 1024

/-- Constant `this.SUPPORTED_FORMATS` (script.js lines 78-81). -/
def SUPPORTED_FORMATS : List String :=
  ["image/jpeg", "image/jpg", "image/png",
   "image/gif", "image/webp", "image/bmp", "image/avif"]

/-- Constant `this.IMAGE_QUALITY_THRESHOLD = 0.8` (script.js line 82). -/
def IMAGE_QUALITY_THRESHOLD : ℚ := 8/10

/-- JS `Map.prototype.get`. -/
def mapGet (c : Cache) (k : String) : Option CacheEntry :=
  match c with
  | [] => none
  | (k', e) :: rest => if k' = k then some e else mapGet rest k

/-- JS `Map.prototype.set`: an existing key keeps its insertion-order
position and gets the new value; a new key is appended at the end. -/
def mapSet (c : Cache) (k : String) (e : CacheEntry) : Cache :=
  match c with
  | [] => [(k, e)]
  | (k', e') :: rest =>
    if k' = k then (k, e) :: rest else (k', e') :: mapSet rest k e

/-- The cache probe at the top of `performSearch` (script.js lines
932-937): the raw `Map` lookup plus the freshness test
`Date.now() - cachedResult.timestamp < this.CACHE_EXPIRY`.  An entry
failing the test (age ≥ TTL) is treated as absent. -/
def cacheProbe (c : Cache) (k : String) (now : Int) : Option (List RawMatch) :=
  match mapGet c k with
  | some e => if now - e.timestamp < CACHE_EXPIRY then some e.data else none
  | none => none

/-- The write-through on a successful attempt (script.js lines 970-977):
`if (results.length > 0) this.searchCache.set(cacheKey, {...})` — an
empty result list is never inserted. -/
def cachePut (c : Cache) (k : String) (results : List RawMatch)
    (t : Int) (rt : ℚ) : Cache :=
  if results.length > 0 then mapSet c k ⟨results, t, rt⟩ else c

/-- The TTL sweep of `cleanupCache` (script.js lines 1734-1739): delete
every entry with `now - value.timestamp > this.CACHE_EXPIRY` (strict
comparison in the source). -/
def evictExpired (now : Int) (c : Cache) : Cache :=
  c.filter (fun kv => !(decide (now - kv.2.timestamp > CACHE_EXPIRY)))

/-- Comparator used by the capacity pass of `cleanupCache`
(`(a, b) => a[1].timestamp - b[1].timestamp`): ascending by insertion
timestamp; JS `Array.prototype.sort` is stable. -/
def tsLe (a b : String × CacheEntry) : Bool :=
  decide (a.2.timestamp ≤ b.2.timestamp)

/-- The capacity pass of `cleanupCache` (script.js lines 1741-1747):
when more than 100 entries remain, stably sort ascending by timestamp
and delete the keys of all but the last 100. -/
def enforceCapacity (c : Cache) : Cache :=
  if c.length > 100 then
    let sorted := c.mergeSort tsLe
    let toDelete := (sorted.take (c.length - 100)).map Prod.fst
    c.filter (fun kv => !(toDelete.contains kv.1))
  else c

/-- Function `cleanupCache` (script.js lines 1733-1748): TTL sweep, then the
capacity pass over what survived it. -/
def cleanupCache (now : Int) (c : Cache) : Cache :=
  enforceCapacity (evictExpired now c)

/-- Comparator used by `displayResults` (`(a, b) => b.similarity -
a.similarity`): descending by similarity, stable. -/
def simGe (a b : RawMatch) : Bool :=
  decide (b.similarity ≤ a.similarity)

/-- The ranking step of `displayResults` (script.js lines 1044-1048):
`results.filter(r => r.similarity > 0.1).sort((a,b) => b.similarity -
a.similarity).slice(0, 10)`. -/
def displayRanking (results : List RawMatch) : List RawMatch :=
  (((results.filter (fun r => decide (r.similarity > 1/10))).mergeSort simGe).take 10)

/-- The file metadata `isValidImageFile` reads: `file.type` and
`file.size`. -/
structure JsFile where
  type : String
  size : Nat
  deriving DecidableEq

/-- Mean brightness of one pixel, `(r + g + b) / 3` (script.js line 535). -/
def brightness (p : ℚ × ℚ × ℚ) : ℚ :=
  (p.1 + p.2.1 + p.2.2) / 3

/-- The accumulated `sharpness` of the loop in `assessImageQuality`
(script.js lines 531-543): sum over consecutive pixel pairs of the
absolute brightness difference (the first pixel contributes nothing). -/
def sharpnessSum : List (ℚ × ℚ × ℚ) → ℚ
  | [] => 0
  | [_] => 0
  | p :: q :: rest => |brightness q - brightness p| + sharpnessSum (q :: rest)

/-- The accumulated `contrast` of the same loop: sum of pixel
brightnesses. -/
def brightnessSum (l : List (ℚ × ℚ × ℚ)) : ℚ :=
  (l.map brightness).sum

/-- Function `assessImageQuality` (script.js lines 511-559).  `decoded` is the
RGBA pixel buffer the image decodes to (one `(r, g, b)` triple per
pixel; the alpha channel is never read), or `none` when the decode
fails, in which case the promise resolves with the fixed default 0.5 —
this function never rejects.  (On a zero-pixel buffer JS divides 0/0
giving NaN; here the rational convention 0/0 = 0 stands in, which only
ever influences warning text, not acceptance.) -/
def assessImageQuality (decoded : Option (List (ℚ × ℚ × ℚ))) : ℚ :=
  match decoded with
  | none => 1/2
  | some data =>
    let n : ℚ := data.length
    let avgSharpness := sharpnessSum data / n
    let avgBrightness := brightnessSum data / n
    min 1 ((avgSharpness / 50) * (avgBrightness / 128))

/-- Function `isValidImageFile` (script.js lines 454-484), returning the accepted
flag together with the warning/error statuses it shows.  `integrityOk`
is whether `validateImageIntegrity`'s decode succeeds (its promise
rejects otherwise, landing in the catch), and `decoded` is what
`assessImageQuality` sees.  The two soft checks sit inside a try/catch
that logs and proceeds, so after the format and size gates the function
always returns `true`. -/
def isValidImageFile (f : JsFile) (integrityOk : Bool)
    (decoded : Option (List (ℚ × ℚ × ℚ))) : Bool × List String :=
  if !(SUPPORTED_FORMATS.contains f.type) then
    (false, ["Unsupported file type"])
  else if f.size > MAX_FILE_SIZE then
    (false, ["File too large"])
  else if integrityOk then
    if assessImageQuality decoded < IMAGE_QUALITY_THRESHOLD then
      (true, ["Low quality image detected"])
    else (true, [])
  else
    (true, ["Image integrity check failed, proceeding anyway"])

/-- The parsed JSON body of a 2xx response: `error` and `result` fields,
each possibly absent.  `data.error` is JS-truthy exactly when present
and a non-empty string; `data.result || []` yields the array whenever
the field is present (arrays, even empty, are truthy) and `[]`
otherwise. -/
structure ApiBody where
  error : Option String := none
  result : Option (List RawMatch) := none
  deriving DecidableEq

/-- JS truthiness of `data.error` (script.js line 964). -/
def errorTruthy (b : ApiBody) : Bool :=
  match b.error with
  | some s => !(decide (s = ""))
  | none => false

/-- How one `fetch` of the retry loop resolves, as observed by the
try-block of `performSearch`:
* `abortError` — the promise rejects with an `AbortError` (the bound
  cancellation signal fired);
* `networkFailure` — the promise rejects for any other reason (e.g. a
  `TypeError` on network failure);
* `httpError s` — it resolves but `!response.ok` (status `s` outside
  200-299), so line 958 throws;
* `jsonError` — `response.ok` but `response.json()` rejects (body not
  parseable as JSON);
* `ok body rt` — `response.ok` and the body parses, with
  `performance.now()` response time `rt`. -/
inductive AttemptOutcome where
  | abortError
  | networkFailure
  | httpError (status : Nat)
  | jsonError
  | ok (body : ApiBody) (responseTime : ℚ)
  deriving DecidableEq

/-- The failures `performSearch` can propagate, abstracting the JS
`Error` objects it throws or re-throws. -/
inductive SearchError where
  | aborted
  | networkFailure
  | httpError (status : Nat)
  | jsonError
  | serviceError (msg : String)
  | hashingUnavailable
  deriving DecidableEq

/-- The error thrown inside the try-block for a failing attempt outcome
(the `ok` case applies when `data.error` is truthy: line 965 throws
`new Error(data.error)`). -/
def errorOf : AttemptOutcome → SearchError
  | .abortError => .aborted
  | .networkFailure => .networkFailure
  | .httpError s => .httpError s
  | .jsonError => .jsonError
  | .ok b _ => .serviceError (b.error.getD "")

/-- The fields of the controller that `performSearch` reads and writes:
the cache and the metrics counters it touches. -/
structure SearchState where
  cache : Cache
  cacheHits : Nat := 0
  cacheMisses : Nat := 0
  avgResponseTime : ℚ := 0
  deriving DecidableEq

/-- What one call of `performSearch` resolves or rejects with. -/
inductive SearchResult where
  | ok (results : List RawMatch)
  | err (e : SearchError)
  deriving DecidableEq

/-- Observable behaviour of one `performSearch` call: its result, the
final controller state, how many fetch attempts were issued, and the
backoff delays slept between them (in order). -/
structure SearchTrace where
  outcome : SearchResult
  state : SearchState
  attemptsMade : Nat
  delays : List ℚ
  deriving DecidableEq

/-- The constant `const maxRetries = 3` (script.js line 927). -/
abbrev maxRetries : Nat := 3

/-- The catch-block of the retry loop (script.js lines 984-998) for a
non-abort error `err` caught while the loop variable was `attempt`:
after `attempt++`, re-throw when the cap is reached; otherwise sleep
`Math.pow(2, attempt) * 1000 + Math.random() * 1000` ms (with the
incremented `attempt`, jitter draw `jitterv`) and continue with the
rest of the loop, whose trace is `rest`. -/
def catchStep (err : SearchError) (attempt : Nat) (jitterv : ℚ)
    (st : SearchState) (rest : SearchTrace) : SearchTrace :=
  if attempt + 1 = maxRetries then
    { outcome := .err err, state := st, attemptsMade := 1, delays := [] }
  else
    { rest with attemptsMade := rest.attemptsMade + 1,
                delays := ((2 ^ (attempt + 1) * 1000 + jitterv : ℚ)) :: rest.delays }

/-- The `while (attempt < maxRetries)` loop of `performSearch`
(script.js lines 941-999).  `outcomes i` is how the fetch of the
(i+1)-st attempt resolves, `jitter i` the `Math.random() * 1000` draw
after it fails, and `putTime` the `Date.now()` read at a cache write.
Entered with `attempt = 0` the loop always exits through a return or a
throw (the catch re-throws once `attempt` reaches `maxRetries`); the
normal-exit branch below mirrors JS falling off the loop returning
`undefined`, which `searchAnime` treats exactly like an empty result
list. -/
def searchLoop (outcomes : Nat → AttemptOutcome) (jitter : Nat → ℚ)
    (putTime : Int) (key : String) (attempt : Nat) (st : SearchState) :
    SearchTrace :=
  if _h : attempt < maxRetries then
    match outcomes attempt with
    | .abortError =>
      { outcome := .err .aborted, state := st, attemptsMade := 1, delays := [] }
    | .networkFailure =>
      catchStep .networkFailure attempt (jitter attempt) st
        (searchLoop outcomes jitter putTime key (attempt + 1) st)
    | .httpError s =>
      catchStep (.httpError s) attempt (jitter attempt) st
        (searchLoop outcomes jitter putTime key (attempt + 1) st)
    | .jsonError =>
      catchStep .jsonError attempt (jitter attempt) st
        (searchLoop outcomes jitter putTime key (attempt + 1) st)
    | .ok body rt =>
      if errorTruthy body then
        catchStep (.serviceError (body.error.getD "")) attempt
          (jitter attempt) st
          (searchLoop outcomes jitter putTime key (attempt + 1) st)
      else
        { outcome := .ok (body.result.getD []),
          state := { st with
            cache := cachePut st.cache key (body.result.getD []) putTime rt,
            avgResponseTime := (st.avgResponseTime + rt) / 2 },
          attemptsMade := 1, delays := [] }
  else
    { outcome := .ok [], state := st, attemptsMade := 0, delays := [] }
termination_by maxRetries - attempt
decreasing_by all_goals omega

/-- How `await this.generateCacheKey()` resolves: a key string, or a
propagated rejection from `hashFile` (there is no try/catch around it,
neither in `generateCacheKey` nor at its call site in `performSearch`,
line 931). -/
inductive KeyResult where
  | ok (key : String)
  | hashFailure
  deriving DecidableEq

/-- How `await this.hashFile(file)` resolves (script.js lines
1516-1521): the hex digest, or a rejection (e.g. `crypto.subtle`
unavailable). -/
inductive HashOutcome where
  | ok (hex : String)
  | failure
  deriving DecidableEq

/-- Function `generateCacheKey` (script.js lines 1503-1511): a file key uses the
content digest plus size; a URL key uses the literal input string; with
neither input the constant key `"unknown"` results.  A `hashFile`
rejection propagates. -/
def generateCacheKey (currentFile : Option JsFile) (urlValue : String)
    (hash : HashOutcome) : KeyResult :=
  match currentFile with
  | some f =>
    match hash with
    | .ok hex => .ok ("file_" ++ hex ++ "_" ++ toString f.size)
    | .failure => .hashFailure
  | none =>
    if urlValue = "" then .ok "unknown" else .ok ("url_" ++ urlValue)

/-- Function `performSearch` (script.js lines 926-1000).  `keyRes` is how
`await this.generateCacheKey()` resolves; that await sits before and
outside the retry loop's try/catch, so a hashing rejection propagates
out of `performSearch` before any cache probe or network attempt.
`now` is the `Date.now()` read of the freshness test (line 933). -/
def performSearch (keyRes : KeyResult) (now putTime : Int)
    (outcomes : Nat → AttemptOutcome) (jitter : Nat → ℚ)
    (st : SearchState) : SearchTrace :=
  match keyRes with
  | .hashFailure =>
    { outcome := .err .hashingUnavailable, state := st,
      attemptsMade := 0, delays := [] }
  | .ok key =>
    match cacheProbe st.cache key now with
    | some data =>
      { outcome := .ok data,
        state := { st with cacheHits := st.cacheHits + 1 },
        attemptsMade := 0, delays := [] }
    | none =>
      searchLoop outcomes jitter putTime key 0
        { st with cacheMisses := st.cacheMisses + 1 }

/-- An attempt outcome that lands in the catch-block and is retried
there: anything except an abort, i.e. a network failure, a non-2xx
status, an unparseable body, or a parsed body whose `error` field is
truthy. -/
def FailingOutcome : AttemptOutcome → Prop
  | .abortError => False
  | .networkFailure => True
  | .httpError _ => True
  | .jsonError => True
  | .ok b _ => errorTruthy b = true

/-- The retryable failures named by the spec: non-2xx status, network
failure, or a service-reported error field. -/
def RetryableOutcome : AttemptOutcome → Prop
  | .networkFailure => True
  | .httpError _ => True
  | .ok b _ => errorTruthy b = true
  | .abortError => False
  | .jsonError => False

/-- Cache states reachable from the empty `Map` by any sequence of
`Map.set` insertions (what `performSearch`'s write-through performs). -/
inductive ReachableCache : Cache → Prop where
  | empty : ReachableCache []
  | insert (k : String) (e : CacheEntry) {c : Cache} :
      ReachableCache c → ReachableCache (mapSet c k e)


theorem RetryableOutcome.failing {o : AttemptOutcome} (h : RetryableOutcome o) :
    FailingOutcome o := by
  rcases o <;> first | exact h | exact h.elim

theorem searchLoop_abort (outcomes : Nat → AttemptOutcome) (jitter : Nat → ℚ)
    (putTime : Int) (key : String) (attempt : Nat) (st : SearchState)
    (h : attempt < maxRetries) (ha : outcomes attempt = .abortError) :
    searchLoop outcomes jitter putTime key attempt st =
    { outcome := .err .aborted, state := st, attemptsMade := 1, delays := [] } := by
  rw [searchLoop]
  simp [h, ha]

theorem searchLoop_retry (outcomes : Nat → AttemptOutcome) (jitter : Nat → ℚ)
    (putTime : Int) (key : String) (attempt : Nat) (st : SearchState)
    (h : attempt < maxRetries) (hr : FailingOutcome (outcomes attempt)) :
    searchLoop outcomes jitter putTime key attempt st =
    catchStep (errorOf (outcomes attempt)) attempt (jitter attempt) st
      (searchLoop outcomes jitter putTime key (attempt + 1) st) := by
  rcases ho : outcomes attempt with _ | _ | s | _ | ⟨b, rt⟩ <;>
      rw [ho] at hr <;> simp only [FailingOutcome] at hr
  · rw [searchLoop]; simp [h, ho, errorOf]
  · rw [searchLoop]; simp [h, ho, errorOf]
  · rw [searchLoop]; simp [h, ho, errorOf]
  · rw [searchLoop]
    simp [h, ho, hr, errorOf]

theorem searchLoop_fail_chain (outcomes : Nat → AttemptOutcome) (jitter : Nat → ℚ)
    (putTime : Int) (key : String) (st : SearchState)
    (hfail : ∀ i, FailingOutcome (outcomes i)) :
    searchLoop outcomes jitter putTime key 0 st =
    { outcome := .err (errorOf (outcomes 2)), state := st, attemptsMade := 3,
      delays := [2 ^ 1 * 1000 + jitter 0, 2 ^ 2 * 1000 + jitter 1] } := by
  have h2 : searchLoop outcomes jitter putTime key 2 st =
      { outcome := .err (errorOf (outcomes 2)), state := st,
        attemptsMade := 1, delays := [] } := by
    rw [searchLoop_retry outcomes jitter putTime key 2 st (by decide) (hfail 2)]
    simp [catchStep]
  have h1 : searchLoop outcomes jitter putTime key 1 st =
      { outcome := .err (errorOf (outcomes 2)), state := st,
        attemptsMade := 2, delays := [2 ^ 2 * 1000 + jitter 1] } := by
    rw [searchLoop_retry outcomes jitter putTime key 1 st (by decide) (hfail 1), h2]
    simp [catchStep]
  rw [searchLoop_retry outcomes jitter putTime key 0 st (by decide) (hfail 0), h1]
  simp [catchStep]

/-- C1: a cache-missing search whose every attempt fails retryably makes
exactly 3 attempts, sleeps the two backoff delays in between (and none
after the last), and surfaces the last attempt's error to the caller. -/
theorem retry_bound_on_total_failure (k : String) (now putTime : Int)
    (outcomes : Nat → AttemptOutcome) (jitter : Nat → ℚ) (st : SearchState)
    (hmiss : cacheProbe st.cache k now = none)
    (hfail : ∀ i, RetryableOutcome (outcomes i))
    (hjit : ∀ i, 0 ≤ jitter i ∧ jitter i < 1000) :
    (performSearch (.ok k) now putTime outcomes jitter st).attemptsMade = 3 ∧
    (performSearch (.ok k) now putTime outcomes jitter st).outcome =
      .err (errorOf (outcomes 2)) ∧
    (performSearch (.ok k) now putTime outcomes jitter st).delays.length = 2 ∧
    ∀ i, (hi : i < (performSearch (.ok k) now putTime outcomes jitter st).delays.length) →
      2 ^ (i + 1) * 1000 ≤
        ((performSearch (.ok k) now putTime outcomes jitter st).delays.get ⟨i, hi⟩) ∧
      ((performSearch (.ok k) now putTime outcomes jitter st).delays.get ⟨i, hi⟩) <
        2 ^ (i + 1) * 1000 + 1000 := by
  have hps : performSearch (.ok k) now putTime outcomes jitter st =
      { outcome := .err (errorOf (outcomes 2)),
        state := { st with cacheMisses := st.cacheMisses + 1 },
        attemptsMade := 3,
        delays := [2 ^ 1 * 1000 + jitter 0, 2 ^ 2 * 1000 + jitter 1] } := by
    simp only [performSearch, hmiss]
    exact searchLoop_fail_chain outcomes jitter putTime k _
      (fun i => (hfail i).failing)
  rw [hps]
  refine ⟨rfl, rfl, rfl, ?_⟩
  intro i hi
  simp only [List.length_cons, List.length_nil] at hi
  interval_cases i
  · simpa [List.get] using ⟨(hjit 0).1, (hjit 0).2⟩
  · have h1 := hjit 1
    constructor
    · simp [List.get]; linarith [h1.1]
    · simp [List.get]; linarith [h1.2]

/-- C1 witness: an endpoint answering 503 on every attempt, zero jitter. -/
theorem retry_bound_on_total_failure_witness :
    cacheProbe (SearchState.cache ⟨[], 0, 0, 0⟩) "k" 0 = none ∧
    (∀ i, RetryableOutcome ((fun _ : Nat => AttemptOutcome.httpError 503) i)) ∧
    (∀ i, 0 ≤ (fun _ : Nat => (0 : ℚ)) i ∧ (fun _ : Nat => (0 : ℚ)) i < 1000) ∧
    (performSearch (.ok "k") 0 0 (fun _ => .httpError 503) (fun _ => 0)
        ⟨[], 0, 0, 0⟩).attemptsMade = 3 ∧
    (performSearch (.ok "k") 0 0 (fun _ => .httpError 503) (fun _ => 0)
        ⟨[], 0, 0, 0⟩).outcome = .err (.httpError 503) ∧
    (performSearch (.ok "k") 0 0 (fun _ => .httpError 503) (fun _ => 0)
        ⟨[], 0, 0, 0⟩).delays.length = 2 ∧
    ∀ i, (hi : i < (performSearch (.ok "k") 0 0 (fun _ => .httpError 503) (fun _ => 0)
        ⟨[], 0, 0, 0⟩).delays.length) →
      2 ^ (i + 1) * 1000 ≤
        ((performSearch (.ok "k") 0 0 (fun _ => .httpError 503) (fun _ => 0)
        ⟨[], 0, 0, 0⟩).delays.get ⟨i, hi⟩) ∧
      ((performSearch (.ok "k") 0 0 (fun _ => .httpError 503) (fun _ => 0)
        ⟨[], 0, 0, 0⟩).delays.get ⟨i, hi⟩) < 2 ^ (i + 1) * 1000 + 1000 :=
  ⟨rfl, fun _ => trivial, fun _ => ⟨le_refl 0, by norm_num⟩,
    retry_bound_on_total_failure "k" 0 0 (fun _ => .httpError 503) (fun _ => 0)
      ⟨[], 0, 0, 0⟩ rfl (fun _ => trivial) (fun _ => ⟨le_refl 0, by norm_num⟩)⟩

/-- C3: an abort observed on any attempt is raised at once: no further
attempt starts, no backoff delay is slept after it, and it is never
converted into a retryable failure. -/
theorem cancellation_short_circuits (k : String) (now putTime : Int)
    (outcomes : Nat → AttemptOutcome) (jitter : Nat → ℚ) (st : SearchState) (i : Nat)
    (hmiss : cacheProbe st.cache k now = none)
    (hi : i < maxRetries)
    (hpre : ∀ j, j < i → FailingOutcome (outcomes j))
    (habort : outcomes i = .abortError) :
    (performSearch (.ok k) now putTime outcomes jitter st).outcome = .err .aborted ∧
    (performSearch (.ok k) now putTime outcomes jitter st).attemptsMade = i + 1 ∧
    (performSearch (.ok k) now putTime outcomes jitter st).delays.length = i := by
  simp only [performSearch, hmiss]
  have hi3 : i < 3 := hi
  interval_cases i
  · rw [searchLoop_abort outcomes jitter putTime k 0 _ (by decide) habort]
    exact ⟨rfl, rfl, rfl⟩
  · rw [searchLoop_retry outcomes jitter putTime k 0 _ (by decide) (hpre 0 (by norm_num)),
       searchLoop_abort outcomes jitter putTime k 1 _ (by decide) habort]
    simp [catchStep]
  · rw [searchLoop_retry outcomes jitter putTime k 0 _ (by decide) (hpre 0 (by norm_num)),
       searchLoop_retry outcomes jitter putTime k 1 _ (by decide) (hpre 1 (by norm_num)),
       searchLoop_abort outcomes jitter putTime k 2 _ (by decide) habort]
    simp [catchStep]

/-- C3 witness: first attempt fails with a 500, the second is aborted. -/
theorem cancellation_short_circuits_witness :
    cacheProbe (SearchState.cache ⟨[], 0, 0, 0⟩) "k" 0 = none ∧
    1 < maxRetries ∧
    (∀ j, j < 1 →
      FailingOutcome ((fun i : Nat => if i = 0 then AttemptOutcome.httpError 500
        else AttemptOutcome.abortError) j)) ∧
    (fun i : Nat => if i = 0 then AttemptOutcome.httpError 500
        else AttemptOutcome.abortError) 1 = AttemptOutcome.abortError ∧
    (performSearch (.ok "k") 0 0
        (fun i => if i = 0 then .httpError 500 else .abortError) (fun _ => 0)
        ⟨[], 0, 0, 0⟩).outcome = .err .aborted ∧
    (performSearch (.ok "k") 0 0
        (fun i => if i = 0 then .httpError 500 else .abortError) (fun _ => 0)
        ⟨[], 0, 0, 0⟩).attemptsMade = 1 + 1 ∧
    (performSearch (.ok "k") 0 0
        (fun i => if i = 0 then .httpError 500 else .abortError) (fun _ => 0)
        ⟨[], 0, 0, 0⟩).delays.length = 1 :=
  ⟨rfl, by decide, fun j hj => by interval_cases j; trivial, rfl,
    cancellation_short_circuits "k" 0 0
      (fun i => if i = 0 then .httpError 500 else .abortError) (fun _ => 0)
      ⟨[], 0, 0, 0⟩ 1 rfl (by decide)
      (fun j hj => by interval_cases j; trivial) rfl⟩

/-- C4 counterexample: first attempt returns 2xx with an unparseable
body, second attempt succeeds cleanly — the call does not surface the
malformed-response failure on the first attempt; it sleeps one backoff
delay and issues a second attempt that succeeds. -/
theorem malformed_json_retried_counterexample :
    (performSearch (.ok "k") 0 0
        (fun i => if i = 0 then .jsonError else .ok ⟨none, none⟩ 7) (fun _ => 0)
        ⟨[], 0, 0, 0⟩).attemptsMade = 2 ∧
    (performSearch (.ok "k") 0 0
        (fun i => if i = 0 then .jsonError else .ok ⟨none, none⟩ 7) (fun _ => 0)
        ⟨[], 0, 0, 0⟩).delays = [2000] ∧
    (performSearch (.ok "k") 0 0
        (fun i => if i = 0 then .jsonError else .ok ⟨none, none⟩ 7) (fun _ => 0)
        ⟨[], 0, 0, 0⟩).outcome = .ok [] := by
  have h0 : performSearch (.ok "k") 0 0
      (fun i => if i = 0 then .jsonError else .ok ⟨none, none⟩ 7) (fun _ => 0)
      (⟨[], 0, 0, 0⟩ : SearchState) =
      { outcome := .ok [], state := ⟨[], 0, 1, 7 / 2⟩,
        attemptsMade := 2, delays := [2000] } := by
    simp only [performSearch, cacheProbe, mapGet]
    rw [searchLoop_retry _ _ _ _ 0 _ (by decide) (by norm_num [FailingOutcome])]
    rw [searchLoop]
    norm_num [catchStep, errorTruthy, cachePut, errorOf]
  rw [h0]
  exact ⟨rfl, rfl, rfl⟩

/-- C4 amended: a 2xx response with an unparseable JSON body is treated
like any other caught failure: it is retried with backoff up to the
3-attempt cap, and only the final failure is surfaced. -/
theorem malformed_json_is_retried (k : String) (now putTime : Int)
    (outcomes : Nat → AttemptOutcome) (jitter : Nat → ℚ) (st : SearchState)
    (hmiss : cacheProbe st.cache k now = none)
    (hjson : ∀ i, outcomes i = .jsonError) :
    (performSearch (.ok k) now putTime outcomes jitter st).attemptsMade = 3 ∧
    (performSearch (.ok k) now putTime outcomes jitter st).outcome = .err .jsonError ∧
    (performSearch (.ok k) now putTime outcomes jitter st).delays.length = 2 := by
  have hps : performSearch (.ok k) now putTime outcomes jitter st =
      { outcome := .err (errorOf (outcomes 2)),
        state := { st with cacheMisses := st.cacheMisses + 1 },
        attemptsMade := 3,
        delays := [2 ^ 1 * 1000 + jitter 0, 2 ^ 2 * 1000 + jitter 1] } := by
    simp only [performSearch, hmiss]
    exact searchLoop_fail_chain outcomes jitter putTime k _
      (fun i => by rw [hjson i]; trivial)
  rw [hps, hjson 2]
  exact ⟨rfl, rfl, rfl⟩

/-- C4 amended witness: every attempt yields an unparseable body. -/
theorem malformed_json_is_retried_witness :
    cacheProbe (SearchState.cache ⟨[], 0, 0, 0⟩) "k" 0 = none ∧
    (∀ i, (fun _ : Nat => AttemptOutcome.jsonError) i = AttemptOutcome.jsonError) ∧
    (performSearch (.ok "k") 0 0 (fun _ => .jsonError) (fun _ => 0)
        ⟨[], 0, 0, 0⟩).attemptsMade = 3 ∧
    (performSearch (.ok "k") 0 0 (fun _ => .jsonError) (fun _ => 0)
        ⟨[], 0, 0, 0⟩).outcome = .err .jsonError ∧
    (performSearch (.ok "k") 0 0 (fun _ => .jsonError) (fun _ => 0)
        ⟨[], 0, 0, 0⟩).delays.length = 2 :=
  ⟨rfl, fun _ => rfl,
    malformed_json_is_retried "k" 0 0 (fun _ => .jsonError) (fun _ => 0)
      ⟨[], 0, 0, 0⟩ rfl (fun _ => rfl)⟩

/-- C10: a 2xx response whose parsed body has neither an `error` nor a
`result` field resolves as a successful empty search on that first
attempt, with no delay and the cache left untouched. -/
theorem missing_result_field_empty_success (k : String) (now putTime : Int)
    (outcomes : Nat → AttemptOutcome) (jitter : Nat → ℚ) (st : SearchState) (rt : ℚ)
    (hmiss : cacheProbe st.cache k now = none)
    (h0 : outcomes 0 = .ok ⟨none, none⟩ rt) :
    performSearch (.ok k) now putTime outcomes jitter st =
      { outcome := .ok [],
        state := { st with
          cacheMisses := st.cacheMisses + 1,
          avgResponseTime := (st.avgResponseTime + rt) / 2 },
        attemptsMade := 1, delays := [] } := by
  simp only [performSearch, hmiss]
  rw [searchLoop]
  simp [h0, errorTruthy, cachePut]

/-- C10 witness: concrete run with the body `\x7b\x7d` (no fields). -/
theorem missing_result_field_empty_success_witness :
    cacheProbe (SearchState.cache ⟨[], 0, 0, 0⟩) "k" 0 = none ∧
    (fun _ : Nat => AttemptOutcome.ok ⟨none, none⟩ 4) 0 = AttemptOutcome.ok ⟨none, none⟩ 4 ∧
    performSearch (.ok "k") 0 0 (fun _ => .ok ⟨none, none⟩ 4) (fun _ => 0)
        ⟨[], 0, 0, 0⟩ =
      { outcome := .ok [], state := ⟨[], 0, 1, (0 + 4) / 2⟩,
        attemptsMade := 1, delays := [] } :=
  ⟨rfl, rfl,
    missing_result_field_empty_success "k" 0 0 (fun _ => .ok ⟨none, none⟩ 4)
      (fun _ => 0) ⟨[], 0, 0, 0⟩ 4 rfl rfl⟩

/-- C7 counterexample: the digest primitive fails while the endpoint
would succeed with a non-empty result, yet the search does not proceed:
performSearch rejects with the propagated hashing error after zero
network attempts instead of returning the network result. -/
theorem hashing_failure_fatal_counterexample :
    (performSearch (generateCacheKey (some ⟨"image/png", 4⟩) "" .failure) 0 0
        (fun _ => .ok ⟨none, some [⟨1, none, none, none, none, none⟩]⟩ 1)
        (fun _ => 0) ⟨[], 0, 0, 0⟩).outcome = .err .hashingUnavailable ∧
    (performSearch (generateCacheKey (some ⟨"image/png", 4⟩) "" .failure) 0 0
        (fun _ => .ok ⟨none, some [⟨1, none, none, none, none, none⟩]⟩ 1)
        (fun _ => 0) ⟨[], 0, 0, 0⟩).attemptsMade = 0 :=
  ⟨rfl, rfl⟩

/-- C7 amended: a `hashFile` rejection propagates out of `performSearch`
(the `generateCacheKey` await sits outside the try/catch): the search
fails with the hashing error, with no cache probe, no cache write and no
network attempt. -/
theorem hashing_failure_propagates (f : JsFile) (urlValue : String)
    (now putTime : Int) (outcomes : Nat → AttemptOutcome) (jitter : Nat → ℚ)
    (st : SearchState) :
    generateCacheKey (some f) urlValue .failure = .hashFailure ∧
    performSearch (generateCacheKey (some f) urlValue .failure) now putTime
        outcomes jitter st =
      { outcome := .err .hashingUnavailable, state := st,
        attemptsMade := 0, delays := [] } :=
  ⟨rfl, rfl⟩

theorem mapGet_mapSet_self (c : Cache) (k : String) (e : CacheEntry) :
    mapGet (mapSet c k e) k = some e := by
  induction c with
  | nil => simp [mapSet, mapGet]
  | cons kv rest ih =>
    rcases kv with ⟨k', e'⟩
    by_cases h : k' = k <;> simp [mapSet, mapGet, h, ih]

/-- C2: a non-empty write is retrievable for exactly the TTL window
(fresh probes return it with zero attempts and no network call, probes
at or past the TTL treat the key as absent), and an empty write never
creates an entry. -/
theorem cache_put_then_get (c : Cache) (k : String) (r : List RawMatch)
    (t t' : Int) (rt : ℚ) (hr : r ≠ []) :
    (t' - t < CACHE_EXPIRY → cacheProbe (cachePut c k r t rt) k t' = some r) ∧
    (CACHE_EXPIRY ≤ t' - t → cacheProbe (cachePut c k r t rt) k t' = none) ∧
    (∀ st outcomes jitter now₀ putTime d,
      cacheProbe (SearchState.cache st) k now₀ = some d →
      performSearch (.ok k) now₀ putTime outcomes jitter st =
        { outcome := .ok d, state := { st with cacheHits := st.cacheHits + 1 },
          attemptsMade := 0, delays := [] }) ∧
    cachePut c k [] t rt = c := by
  have hput : cachePut c k r t rt = mapSet c k ⟨r, t, rt⟩ := by
    simp [cachePut, List.length_pos.mpr hr]
  refine ⟨?_, ?_, ?_, ?_⟩
  · intro h
    rw [hput]
    simp [cacheProbe, mapGet_mapSet_self, h]
  · intro h
    rw [hput]
    simp only [cacheProbe, mapGet_mapSet_self]
    rw [if_neg (not_lt.mpr h)]
  · intro st outcomes jitter now₀ putTime d hhit
    simp [performSearch, hhit]
  · simp [cachePut]

/-- C2 witness: one-match write at t = 0, probed at 10 (fresh). -/
theorem cache_put_then_get_witness :
    (([⟨1, none, none, none, none, none⟩] : List RawMatch) ≠ []) ∧
    ((10 - 0 < CACHE_EXPIRY →
      cacheProbe (cachePut [] "k" [⟨1, none, none, none, none, none⟩] 0 0) "k" 10 =
        some [⟨1, none, none, none, none, none⟩]) ∧
    (CACHE_EXPIRY ≤ 10 - 0 →
      cacheProbe (cachePut [] "k" [⟨1, none, none, none, none, none⟩] 0 0) "k" 10 = none) ∧
    (∀ st outcomes jitter now₀ putTime d,
      cacheProbe (SearchState.cache st) "k" now₀ = some d →
      performSearch (.ok "k") now₀ putTime outcomes jitter st =
        { outcome := .ok d, state := { st with cacheHits := st.cacheHits + 1 },
          attemptsMade := 0, delays := [] }) ∧
    cachePut [] "k" [] 0 0 = []) :=
  ⟨by simp, cache_put_then_get [] "k" [⟨1, none, none, none, none, none⟩] 0 10 0 (by simp)⟩

/-- C6 counterexample: an entry aged exactly TTL (now - insertedAt =
CACHE_EXPIRY) survives the sweep: the source compares with strict `>`,
so the removal the claim asserts at age = TTL does not happen. -/
theorem ttl_sweep_boundary_counterexample :
    CACHE_EXPIRY ≤ (3600000 : Int) -
      (⟨[⟨1, none, none, none, none, none⟩], 0, 0⟩ : CacheEntry).timestamp ∧
    evictExpired 3600000 [("k", ⟨[⟨1, none, none, none, none, none⟩], 0, 0⟩)] =
      [("k", ⟨[⟨1, none, none, none, none, none⟩], 0, 0⟩)] := by
  constructor
  · norm_num [CACHE_EXPIRY]
  · rfl

theorem mem_evictExpired (now : Int) (c : Cache) (kv : String × CacheEntry) :
    kv ∈ evictExpired now c ↔ kv ∈ c ∧ now - kv.2.timestamp ≤ CACHE_EXPIRY := by
  simp [evictExpired, List.mem_filter, not_lt]

/-- C6 amended: the TTL sweep removes exactly the entries strictly older
than TTL — an entry survives iff its age is at most CACHE_EXPIRY, so an
entry aged exactly TTL is kept by the sweep (the probe, which tests
age < TTL, already treats it as expired). -/
theorem ttl_sweep_removes_iff (now : Int) (c : Cache) (kv : String × CacheEntry) :
    kv ∈ evictExpired now c ↔ kv ∈ c ∧ now - kv.2.timestamp ≤ CACHE_EXPIRY :=
  mem_evictExpired now c kv

/-- C8: the validator rejects exactly when the MIME type is outside the
supported set or the byte size exceeds 25 MB; the soft integrity check
and the quality heuristic (whose decode failure yields the fixed default
0.5) never affect acceptance, whatever they observe. -/
theorem image_validation_accepts_iff (f : JsFile) (integrityOk : Bool)
    (decoded : Option (List (ℚ × ℚ × ℚ))) :
    ((isValidImageFile f integrityOk decoded).1 = true ↔
      f.type ∈ SUPPORTED_FORMATS ∧ f.size ≤ MAX_FILE_SIZE) ∧
    assessImageQuality none = 1/2 := by
  refine ⟨?_, rfl⟩
  rw [isValidImageFile]
  split_ifs with h1 h2 h3 h4 <;>
    simp_all [List.contains, not_lt]

theorem pairwise_take_drop {α : Type _} {R : α → α → Prop} {l : List α}
    (h : l.Pairwise R) (n : Nat) : ∀ x ∈ l.take n, ∀ y ∈ l.drop n, R x y := by
  have h' : (l.take n ++ l.drop n).Pairwise R := by
    rw [List.take_append_drop]; exact h
  exact (List.pairwise_append.mp h').2.2

theorem mem_take_or_drop {α : Type _} {l : List α} {a : α} (h : a ∈ l) (n : Nat) :
    a ∈ l.take n ∨ a ∈ l.drop n := by
  have h' : a ∈ l.take n ++ l.drop n := by
    rw [List.take_append_drop]; exact h
  exact List.mem_append.mp h'

theorem simGe_trans (a b c : RawMatch) (hab : simGe a b) (hbc : simGe b c) :
    simGe a c := by
  simp only [simGe, decide_eq_true_eq] at *
  linarith

theorem simGe_total (a b : RawMatch) : simGe a b || simGe b a := by
  simp only [simGe]
  rcases le_total b.similarity a.similarity with h | h <;> simp [h]

/-- C9: the ranked list shown to the caller consists of the raw matches
above the 0.1 similarity threshold — a sub-permutation of them of size
min(count, 10), sorted descending by similarity — and no excluded
above-threshold match outranks a shown one. -/
theorem display_ranking_spec (l : List RawMatch) :
    (displayRanking l).length =
      min (l.filter (fun r => decide (r.similarity > 1/10))).length 10 ∧
    List.Pairwise (fun a b => b.similarity ≤ a.similarity) (displayRanking l) ∧
    List.Subperm (displayRanking l) (l.filter (fun r => decide (r.similarity > 1/10))) ∧
    (∀ m ∈ displayRanking l, m.similarity > 1/10 ∧ m ∈ l) ∧
    (∀ m ∈ l.filter (fun r => decide (r.similarity > 1/10)), m ∉ displayRanking l →
      ∀ m' ∈ displayRanking l, m.similarity ≤ m'.similarity) := by
  have hperm : List.Perm
      ((l.filter (fun r => decide (r.similarity > 1/10))).mergeSort simGe)
      (l.filter (fun r => decide (r.similarity > 1/10))) :=
    List.mergeSort_perm _ simGe
  have hsorted : ((l.filter (fun r => decide (r.similarity > 1/10))).mergeSort simGe).Pairwise
      (fun a b => simGe a b) :=
    List.sorted_mergeSort simGe_trans simGe_total _
  have hdr : displayRanking l =
      ((l.filter (fun r => decide (r.similarity > 1/10))).mergeSort simGe).take 10 := rfl
  refine ⟨?_, ?_, ?_, ?_, ?_⟩
  · rw [hdr, List.length_take, hperm.length_eq, Nat.min_comm]
  · rw [hdr]
    exact (List.Pairwise.sublist (List.take_sublist 10 _) hsorted).imp
      (fun h => by simpa [simGe] using h)
  · rw [hdr]
    exact ((List.take_sublist 10 _).subperm).trans hperm.subperm
  · intro m hm
    rw [hdr] at hm
    have hmf : m ∈ l.filter (fun r => decide (r.similarity > 1/10)) :=
      hperm.mem_iff.mp (List.mem_of_mem_take hm)
    have := List.mem_filter.mp hmf
    exact ⟨by simpa using this.2, this.1⟩
  · intro m hmf hmno m' hm'
    rw [hdr] at hmno hm'
    have hmem : m ∈ (l.filter (fun r => decide (r.similarity > 1/10))).mergeSort simGe :=
      hperm.mem_iff.mpr hmf
    have hdrop : m ∈ ((l.filter (fun r => decide (r.similarity > 1/10))).mergeSort simGe).drop 10 := by
      rcases mem_take_or_drop hmem 10 with h | h
      · exact absurd h hmno
      · exact h
    have := pairwise_take_drop hsorted 10 m' hm' m hdrop
    simpa [simGe] using this

theorem tsLe_trans (a b c : String × CacheEntry) (hab : tsLe a b) (hbc : tsLe b c) :
    tsLe a c := by
  simp only [tsLe, decide_eq_true_eq] at *
  omega

theorem tsLe_total (a b : String × CacheEntry) : tsLe a b || tsLe b a := by
  simp only [tsLe]
  rcases le_total a.2.timestamp b.2.timestamp with h | h <;> simp [h]

theorem mapSet_fst (c : Cache) (k : String) (e : CacheEntry) :
    (mapSet c k e).map Prod.fst =
      if k ∈ c.map Prod.fst then c.map Prod.fst else c.map Prod.fst ++ [k] := by
  induction c with
  | nil => simp [mapSet]
  | cons kv rest ih =>
    rcases kv with ⟨k', e'⟩
    by_cases h : k' = k
    · subst h
      simp [mapSet]
    · rw [mapSet]
      simp only [if_neg h, List.map_cons]
      rw [ih]
      by_cases hk : k ∈ List.map Prod.fst rest
      · rw [if_pos hk, if_pos (List.mem_cons_of_mem k' hk)]
      · rw [if_neg hk, if_neg (by simp [hk, Ne.symm h])]
        simp

theorem mapSet_nodup {c : Cache} (k : String) (e : CacheEntry)
    (h : (c.map Prod.fst).Nodup) : ((mapSet c k e).map Prod.fst).Nodup := by
  rw [mapSet_fst]
  split_ifs with hk
  · exact h
  · simp [List.nodup_append, h, hk]

/-- A reachable cache has pairwise-distinct keys (the JS `Map`
invariant). -/
theorem ReachableCache.nodup_keys {c : Cache} (h : ReachableCache c) :
    (c.map Prod.fst).Nodup := by
  induction h with
  | empty => simp
  | insert k e _ ih => exact mapSet_nodup k e ih

theorem capacity_filter_perm (c : Cache) (hnd : (c.map Prod.fst).Nodup) (d : Nat) :
    List.Perm
      (c.filter (fun kv =>
        !((((c.mergeSort tsLe).take d).map Prod.fst).contains kv.1)))
      ((c.mergeSort tsLe).drop d) := by
  have hperm : List.Perm (c.mergeSort tsLe) c := List.mergeSort_perm c tsLe
  have hnd' : ((c.mergeSort tsLe).map Prod.fst).Nodup :=
    ((hperm.map Prod.fst).nodup_iff).mpr hnd
  have hfe : ∀ p : String × CacheEntry → Bool,
      (∀ kv ∈ (c.mergeSort tsLe).take d, ¬p kv) →
      (∀ kv ∈ (c.mergeSort tsLe).drop d, p kv) →
      (c.mergeSort tsLe).filter p = (c.mergeSort tsLe).drop d := by
    intro p hp1 hp2
    conv_lhs => rw [← List.take_append_drop d (c.mergeSort tsLe)]
    rw [List.filter_append, List.filter_eq_nil_iff.mpr hp1,
      List.filter_eq_self.mpr hp2, List.nil_append]
  have h1 : ∀ kv ∈ (c.mergeSort tsLe).take d,
      ¬((fun kv : String × CacheEntry =>
        !((((c.mergeSort tsLe).take d).map Prod.fst).contains kv.1)) kv = true) := by
    intro kv hkv
    have hm : kv.1 ∈ ((c.mergeSort tsLe).take d).map Prod.fst :=
      List.mem_map_of_mem Prod.fst hkv
    simp only [List.map_take] at hm
    simp [List.contains, hm]
  have h2 : ∀ kv ∈ (c.mergeSort tsLe).drop d,
      ((fun kv : String × CacheEntry =>
        !((((c.mergeSort tsLe).take d).map Prod.fst).contains kv.1)) kv = true) := by
    intro kv hkv
    have hm2 : kv.1 ∈ ((c.mergeSort tsLe).drop d).map Prod.fst :=
      List.mem_map_of_mem Prod.fst hkv
    have hdisj : List.Disjoint (((c.mergeSort tsLe).take d).map Prod.fst)
        (((c.mergeSort tsLe).drop d).map Prod.fst) := by
      apply List.disjoint_of_nodup_append
      rw [← List.map_append, List.take_append_drop]
      exact hnd'
    have hm1 : kv.1 ∉ ((c.mergeSort tsLe).take d).map Prod.fst :=
      fun hin => hdisj hin hm2
    simp only [List.map_take] at hm1
    simp [List.contains, hm1]
  exact ((hperm.filter _).symm).trans (List.Perm.of_eq (hfe _ h1 h2))

theorem enforceCapacity_spec (c : Cache) (hnd : (c.map Prod.fst).Nodup) :
    (enforceCapacity c).length = min c.length 100 ∧
    (∀ kv ∈ enforceCapacity c, kv ∈ c) ∧
    (∀ kv ∈ c, kv ∉ enforceCapacity c →
      ∀ kv' ∈ enforceCapacity c, kv.2.timestamp ≤ kv'.2.timestamp) := by
  by_cases hlen : c.length > 100
  · have he : enforceCapacity c = c.filter (fun kv =>
        !((((c.mergeSort tsLe).take (c.length - 100)).map Prod.fst).contains kv.1)) := by
      simp only [enforceCapacity, if_pos hlen]
    have hperm2 := capacity_filter_perm c hnd (c.length - 100)
    have hsorted : (c.mergeSort tsLe).Pairwise (fun a b => tsLe a b) :=
      List.sorted_mergeSort tsLe_trans tsLe_total c
    refine ⟨?_, ?_, ?_⟩
    · rw [he, hperm2.length_eq, List.length_drop, List.length_mergeSort]
      omega
    · intro kv hkv
      rw [he] at hkv
      exact List.mem_of_mem_filter hkv
    · intro kv hkv hnot kv' hkv'
      rw [he] at hnot hkv'
      have hkvs : kv ∈ c.mergeSort tsLe :=
        (List.mergeSort_perm c tsLe).mem_iff.mpr hkv
      have hkv'drop : kv' ∈ (c.mergeSort tsLe).drop (c.length - 100) :=
        (hperm2.mem_iff).mp hkv'
      have hkvtake : kv ∈ (c.mergeSort tsLe).take (c.length - 100) := by
        rcases mem_take_or_drop hkvs (c.length - 100) with h | h
        · exact h
        · exact absurd ((hperm2.mem_iff).mpr h) hnot
      have := pairwise_take_drop hsorted (c.length - 100) kv hkvtake kv' hkv'drop
      simpa [tsLe] using this
  · have he : enforceCapacity c = c := by
      simp only [enforceCapacity, if_neg hlen]
    rw [he]
    refine ⟨?_, fun kv h => h, fun kv h1 h2 => absurd h1 h2⟩
    omega

/-- C5: on any insertion-reachable cache state, `cleanupCache` leaves at
most 100 entries — exactly min(surviving-unexpired count, 100) — all of
them entries of the original cache, and every removed entry is at least
as old by insertion timestamp as every retained one (the oldest are the
ones removed). -/
theorem cleanupCache_capacity (now : Int) (c : Cache) (hreach : ReachableCache c) :
    (cleanupCache now c).length ≤ 100 ∧
    (cleanupCache now c).length = min (evictExpired now c).length 100 ∧
    (∀ kv ∈ cleanupCache now c, kv ∈ c) ∧
    (∀ kv ∈ c, kv ∉ cleanupCache now c →
      ∀ kv' ∈ cleanupCache now c, kv.2.timestamp ≤ kv'.2.timestamp) := by
  have hnd : (c.map Prod.fst).Nodup := hreach.nodup_keys
  have hnd1 : ((evictExpired now c).map Prod.fst).Nodup := by
    have hsub : List.Sublist (evictExpired now c) c := List.filter_sublist c
    exact List.Nodup.sublist (hsub.map Prod.fst) hnd
  obtain ⟨hlen, hmem, hts⟩ := enforceCapacity_spec (evictExpired now c) hnd1
  have hcc : cleanupCache now c = enforceCapacity (evictExpired now c) := rfl
  refine ⟨?_, ?_, ?_, ?_⟩
  · rw [hcc, hlen]; omega
  · rw [hcc, hlen]
  · intro kv hkv
    rw [hcc] at hkv
    exact List.mem_of_mem_filter (hmem kv hkv)
  · intro kv hkv hnot kv' hkv'
    rw [hcc] at hnot hkv'
    by_cases hkv1 : kv ∈ evictExpired now c
    · exact hts kv hkv1 hnot kv' hkv'
    · have h1 : ¬(now - kv.2.timestamp ≤ CACHE_EXPIRY) := by
        intro hle
        exact hkv1 ((mem_evictExpired now c kv).mpr ⟨hkv, hle⟩)
      have h2 : now - kv'.2.timestamp ≤ CACHE_EXPIRY :=
        ((mem_evictExpired now c kv').mp (hmem kv' hkv')).2
      omega

/-- C5 witness: a two-entry cache built by two insertions. -/
theorem cleanupCache_capacity_witness :
    ReachableCache (mapSet (mapSet []
        "a" ⟨[⟨1, none, none, none, none, none⟩], 0, 0⟩)
        "b" ⟨[⟨1, none, none, none, none, none⟩], 5, 0⟩) ∧
    (cleanupCache 10 (mapSet (mapSet []
        "a" ⟨[⟨1, none, none, none, none, none⟩], 0, 0⟩)
        "b" ⟨[⟨1, none, none, none, none, none⟩], 5, 0⟩)).length ≤ 100 ∧
    (cleanupCache 10 (mapSet (mapSet []
        "a" ⟨[⟨1, none, none, none, none, none⟩], 0, 0⟩)
        "b" ⟨[⟨1, none, none, none, none, none⟩], 5, 0⟩)).length =
      min (evictExpired 10 (mapSet (mapSet []
        "a" ⟨[⟨1, none, none, none, none, none⟩], 0, 0⟩)
        "b" ⟨[⟨1, none, none, none, none, none⟩], 5, 0⟩)).length 100 ∧
    (∀ kv ∈ cleanupCache 10 (mapSet (mapSet []
        "a" ⟨[⟨1, none, none, none, none, none⟩], 0, 0⟩)
        "b" ⟨[⟨1, none, none, none, none, none⟩], 5, 0⟩),
      kv ∈ mapSet (mapSet []
        "a" ⟨[⟨1, none, none, none, none, none⟩], 0, 0⟩)
        "b" ⟨[⟨1, none, none, none, none, none⟩], 5, 0⟩) ∧
    (∀ kv ∈ mapSet (mapSet []
        "a" ⟨[⟨1, none, none, none, none, none⟩], 0, 0⟩)
        "b" ⟨[⟨1, none, none, none, none, none⟩], 5, 0⟩,
      kv ∉ cleanupCache 10 (mapSet (mapSet []
        "a" ⟨[⟨1, none, none, none, none, none⟩], 0, 0⟩)
        "b" ⟨[⟨1, none, none, none, none, none⟩], 5, 0⟩) →
      ∀ kv' ∈ cleanupCache 10 (mapSet (mapSet []
        "a" ⟨[⟨1, none, none, none, none, none⟩], 0, 0⟩)
        "b" ⟨[⟨1, none, none, none, none, none⟩], 5, 0⟩),
        kv.2.timestamp ≤ kv'.2.timestamp) :=
  ⟨ReachableCache.insert "b" _ (ReachableCache.insert "a" _ ReachableCache.empty),
    cleanupCache_capacity 10 _
      (ReachableCache.insert "b" _ (ReachableCache.insert "a" _ ReachableCache.empty))⟩

end MrSauce
